import Mathlib

/-!
Verification of the Moodle evaluation-parser core: a shallow embedding of
the XML question-bank extraction pipeline (sanitizer, grouping state
machine, per-type extractors) and of the template-configuration engine
(validator, presets, v1-to-v2 migration, expression evaluator, block
renderer), with theorems settling the specified properties.

Python dictionaries are modelled as association lists (first match wins),
Python floats as exact rationals, and machine strings as Lean strings
(with helper functions reproducing the exact Python semantics of strip,
split, truthiness and isinstance used by the code).
-/

set_option maxHeartbeats 1000000

namespace MoodleParser

/-- The whitespace test of Python str.strip / regex \s (ASCII range). -/
def pyIsSpace (c : Char) : Bool :=
  c = ' ' || c = '\t' || c = '\n' || c = '\r' || c = Char.ofNat 11 || c = Char.ofNat 12

/-- Left strip on character lists. -/
def pyStripLChars (l : List Char) : List Char := l.dropWhile pyIsSpace

/-- Right strip on character lists. -/
def pyStripRChars (l : List Char) : List Char := (l.reverse.dropWhile pyIsSpace).reverse

/-- Python str.strip on character lists. -/
def pyStripChars (l : List Char) : List Char := pyStripRChars (pyStripLChars l)

/-- Python str.strip on strings. -/
def pyStrip (s : String) : String := String.mk (pyStripChars s.data)

/-- Python s.startswith(pre), by characters. -/
def strStartsWith (s pre : String) : Bool := List.isPrefixOf pre.data s.data

/-- Python slicing s[n:], by characters. -/
def strDrop (s : String) (n : Nat) : String := String.mk (s.data.drop n)

/-- Python str.lower, by characters (ASCII; the code only compares
against the ASCII words true and false). -/
def strToLower (s : String) : String := String.mk (s.data.map Char.toLower)

/-- Python str.split with a one-character separator. -/
def splitChar (c : Char) : List Char → List (List Char)
  | [] => [[]]
  | a :: as =>
    if a = c then [] :: splitChar c as
    else
      match splitChar c as with
      | g :: gs => (a :: g) :: gs
      | [] => [[a]]

/-- Python sep.join(parts). -/
def joinSep (sep : String) : List String → String
  | [] => ""
  | x :: xs => xs.foldl (fun acc s => acc ++ sep ++ s) x

/-- Split a character list at the first occurrence of character c:
returns the part before and, when c occurs, the part after. -/
def splitOnceChar (c : Char) : List Char → List Char × Option (List Char)
  | [] => ([], none)
  | a :: as =>
    if a = c then ([], some as)
    else
      let r := splitOnceChar c as
      (a :: r.1, r.2)

/-- JSON-like Python values as passed around by the template engine. -/
inductive JValue where
  | jnull
  | jbool (b : Bool)
  | jint (n : Int)
  | jfloat (q : Rat)
  | jstr (s : String)
  | jarr (items : List JValue)
  | jobj (fields : List (String × JValue))
deriving Inhabited

/-- Python dict.get on an association list (first binding wins). -/
def objGet (kvs : List (String × JValue)) (k : String) : Option JValue :=
  match kvs with
  | [] => none
  | (k', v) :: rest => if k' = k then some v else objGet rest k

/-- Python dict item assignment d[k] = v on an association list. -/
def objSet : List (String × JValue) → String → JValue → List (String × JValue)
  | [], k, v => [(k, v)]
  | (k', v') :: rest, k, v =>
    if k' = k then (k, v) :: rest else (k', v') :: objSet rest k v

/-- Python isinstance(x, int): true for ints and bools (bool is an int subtype). -/
def jIsInt : JValue → Bool
  | .jint _ => true
  | .jbool _ => true
  | _ => false

/-- Python isinstance(x, (int, float)). -/
def jIsIntOrFloat : JValue → Bool
  | .jint _ => true
  | .jbool _ => true
  | .jfloat _ => true
  | _ => false

/-- Python int(x) on an int-like value (floats truncate toward zero). -/
def jIntVal : JValue → Int
  | .jint n => n
  | .jbool b => if b then 1 else 0
  | .jfloat q => q.floor + (if q < 0 ∧ q.den ≠ 1 then 1 else 0)
  | _ => 0

/-- Python x == n for an integer literal n (numeric cross-type equality). -/
def pyEqInt (v : JValue) (n : Int) : Bool :=
  match v with
  | .jint m => m = n
  | .jbool b => (if b then (1 : Int) else 0) = n
  | .jfloat q => q = (n : Rat)
  | _ => false

/-- Python truthiness of a value. -/
def jTruthy : JValue → Bool
  | .jnull => false
  | .jbool b => b
  | .jint n => n ≠ 0
  | .jfloat q => q ≠ 0
  | .jstr s => s ≠ ""
  | .jarr l => !l.isEmpty
  | .jobj kvs => !kvs.isEmpty

/-- Python len(x); scalars have no len (the code never takes one
on a validated path), modelled as 0. -/
def jLen : JValue → Nat
  | .jarr l => l.length
  | .jobj kvs => kvs.length
  | .jstr s => s.length
  | _ => 0

/-- Display form of a value used inside validator error messages. -/
def pyStrJ : Option JValue → String
  | none => "None"
  | some .jnull => "None"
  | some (.jbool b) => if b then "True" else "False"
  | some (.jint n) => toString n
  | some (.jfloat q) => toString q
  | some (.jstr s) => s
  | some (.jarr _) => "[...]"
  | some (.jobj _) => "\x7b...\x7d"

/-- Nat index rendered as in the Python f-strings of the validator. -/
def idxStr (i : Nat) : String := "blocks[" ++ toString i ++ "]"

/-- Validity of a source value for list/table blocks:
b.get("source") in the three allowed strings. -/
def sourceOk (v : Option JValue) : Bool :=
  match v with
  | some (.jstr s) => s = "answers_all" || s = "answers_correct" || s = "matching_pairs"
  | _ => false

/-- The pattern requirement of line/list blocks:
isinstance(b.get("pattern"), str) and b["pattern"].strip() nonempty. -/
def patternOk (v : Option JValue) : Bool :=
  match v with
  | some (.jstr p) => pyStrip p ≠ ""
  | _ => false

/-- Table-block structural errors (the table arm of the validator loop). -/
def tableBlockErrors (i : Nat) (kvs : List (String × JValue)) : List String :=
      let cols := objGet kvs "cols"
      let colsErrs : List String :=
        match cols with
        | some (.jarr l) =>
          if l.isEmpty then [idxStr i ++ ".cols must be a non-empty list"]
          else if l.all (fun c => patternOk (some c)) then []
          else [idxStr i ++ ".cols must contain non-empty strings"]
        | _ => [idxStr i ++ ".cols must be a non-empty list"]
      let colsVal := (cols).getD .jnull
      let headersErrs : List String :=
        match objGet kvs "headers" with
        | none => []
        | some .jnull => []
        | some (.jarr h) =>
          if jTruthy colsVal ∧ h.length ≠ jLen colsVal then
            [idxStr i ++ ".headers must match cols length"]
          else []
        | some _ => [idxStr i ++ ".headers must match cols length"]
      let widthsErrs : List String :=
        match objGet kvs "col_widths_pct" with
        | none => []
        | some .jnull => []
        | some (.jarr w) =>
          if w.all jIsInt then [] else [idxStr i ++ ".col_widths_pct must be list[int]"]
        | some _ => [idxStr i ++ ".col_widths_pct must be list[int]"]
      (if sourceOk (objGet kvs "source") then [] else [idxStr i ++ ".source invalid"]) ++
      colsErrs ++ headersErrs ++ widthsErrs

/-- Per-block structural errors of validate_template_config_v2. -/
def blockErrors (i : Nat) (b : JValue) : List String :=
  match b with
  | .jobj kvs =>
    match objGet kvs "kind" with
    | some (.jstr s) =>
      if s = "line" then
        if patternOk (objGet kvs "pattern") then [] else [idxStr i ++ ".pattern is required"]
      else if s = "spacer" then
        let mm := (objGet kvs "mm").getD (.jint 4)
        if jIsInt mm ∧ 0 ≤ jIntVal mm ∧ jIntVal mm ≤ 50 then []
        else [idxStr i ++ ".mm must be int 0..50"]
      else if s = "list" then
        (if sourceOk (objGet kvs "source") then [] else [idxStr i ++ ".source invalid"]) ++
        (if patternOk (objGet kvs "pattern") then [] else [idxStr i ++ ".pattern is required"])
      else if s = "table" then
        tableBlockErrors i kvs
      else [idxStr i ++ ".kind invalid: " ++ s]
    | other => [idxStr i ++ ".kind invalid: " ++ pyStrJ other]
  | _ => [idxStr i ++ " must be an object"]

/-- src/template_engine/validator.py: structural validation of a v2
template configuration, accumulating human-readable errors. -/
def validate_template_config_v2 (cfg : JValue) : List String :=
  match cfg with
  | .jobj kvs =>
    let versionErrs : List String :=
      match objGet kvs "version" with
      | some v => if pyEqInt v 2 then [] else ["config.version must be 2"]
      | none => ["config.version must be 2"]
    let stylesErrs : List String :=
      match (objGet kvs "styles").getD (.jobj []) with
      | .jnull => []
      | .jobj _ => []
      | _ => ["config.styles must be an object"]
    match objGet kvs "blocks" with
    | some (.jarr (b :: bs)) =>
      versionErrs ++ stylesErrs ++
        ((List.range (b :: bs).length).zip (b :: bs)).flatMap (fun p => blockErrors p.1 p.2)
    | _ => versionErrs ++ stylesErrs ++ ["config.blocks must be a non-empty list"]
  | _ => ["config is not an object"]

/-- The shared styles object of every built-in preset. -/
def presetStyles : JValue :=
  .jobj [("header_color", .jstr "#C00000"), ("title_size", .jint 22),
         ("header_size", .jint 16), ("body_size", .jint 14), ("answer_size", .jint 12)]

/-- src/template_engine/presets.py preset_table_default: the built-in
default v2 configuration for a question type. -/
def preset_table_default (question_type : String) : JValue :=
  if question_type = "matching" then
    .jobj [("version", .jint 2), ("styles", presetStyles),
      ("blocks", .jarr [
        .jobj [("kind", .jstr "line"), ("pattern", .jstr "\x7b\x7btask.header\x7d\x7d")],
        .jobj [("kind", .jstr "line"), ("pattern", .jstr "\x7b\x7bquestion.question_text\x7d\x7d")],
        .jobj [("kind", .jstr "spacer"), ("mm", .jint 2)],
        .jobj [("kind", .jstr "table"), ("source", .jstr "matching_pairs"),
               ("headers", .jarr [.jstr "№", .jstr "", .jstr "Элемент", .jstr "Правильный ответ"]),
               ("cols", .jarr [.jstr "", .jstr "", .jstr "\x7b\x7bitem.item\x7d\x7d",
                               .jstr "\x7b\x7bitem.answer\x7d\x7d"]),
               ("col_widths_pct", .jarr [.jint 10, .jint 25, .jint 35, .jint 30])]])]
  else if question_type = "multichoice" ∨ question_type = "truefalse" then
    .jobj [("version", .jint 2), ("styles", presetStyles),
      ("blocks", .jarr [
        .jobj [("kind", .jstr "line"), ("pattern", .jstr "\x7b\x7btask.header\x7d\x7d")],
        .jobj [("kind", .jstr "line"), ("pattern", .jstr "\x7b\x7bquestion.question_text\x7d\x7d")],
        .jobj [("kind", .jstr "spacer"), ("mm", .jint 2)],
        .jobj [("kind", .jstr "table"), ("source", .jstr "answers_all"),
               ("headers", .jarr [.jstr "№", .jstr "Варианты ответа", .jstr "Правильный ответ"]),
               ("cols", .jarr [.jstr "", .jstr "\x7b\x7bitem\x7d\x7d",
                               .jstr "\x7b\x7bitem|if_correct\x7d\x7d"]),
               ("col_widths_pct", .jarr [.jint 10, .jint 45, .jint 45])]])]
  else if question_type = "shortanswer" then
    .jobj [("version", .jint 2), ("styles", presetStyles),
      ("blocks", .jarr [
        .jobj [("kind", .jstr "line"), ("pattern", .jstr "\x7b\x7btask.header\x7d\x7d")],
        .jobj [("kind", .jstr "line"), ("pattern", .jstr "\x7b\x7bquestion.question_text\x7d\x7d")],
        .jobj [("kind", .jstr "spacer"), ("mm", .jint 2)],
        .jobj [("kind", .jstr "table"), ("source", .jstr "answers_correct"),
               ("headers", .jarr [.jstr "№", .jstr "", .jstr "Ответ"]),
               ("cols", .jarr [.jstr "", .jstr "", .jstr "\x7b\x7bitem\x7d\x7d"]),
               ("col_widths_pct", .jarr [.jint 10, .jint 10, .jint 80])]])]
  else
    .jobj [("version", .jint 2), ("styles", presetStyles),
      ("blocks", .jarr [
        .jobj [("kind", .jstr "line"), ("pattern", .jstr "\x7b\x7btask.header\x7d\x7d")],
        .jobj [("kind", .jstr "line"), ("pattern", .jstr "\x7b\x7bquestion.question_text\x7d\x7d")],
        .jobj [("kind", .jstr "spacer"), ("mm", .jint 2)],
        .jobj [("kind", .jstr "line"), ("pattern", .jstr "Эталон: \x7b\x7bquestion.reference_answer\x7d\x7d")]])]

/-- The style-overlay loop of migrate_v1_to_v2: copy header_color (when a
string) and the four sizes (when numeric, as int) from the v1 styles. -/
def migrateStyles (v1Styles : List (String × JValue)) (styles : List (String × JValue)) :
    List (String × JValue) :=
  let s1 :=
    match objGet v1Styles "header_color" with
    | some (.jstr c) => objSet styles "header_color" (.jstr c)
    | _ => styles
  ["title_size", "header_size", "body_size", "answer_size"].foldl
    (fun acc key =>
      match objGet v1Styles key with
      | some v => if jIsIntOrFloat v then objSet acc key (.jint (jIntVal v)) else acc
      | none => acc)
    s1

/-- The first-table overwrite of migrate_v1_to_v2: set col_widths_pct of
the first table block to the legacy column percentages, stopping there. -/
def overwriteFirstTable : List JValue → List Int → List JValue
  | [], _ => []
  | b :: bs, tc =>
    match b with
    | .jobj kvs =>
      match objGet kvs "kind" with
      | some (.jstr "table") =>
        .jobj (objSet kvs "col_widths_pct" (.jarr (tc.map .jint))) :: bs
      | _ => .jobj kvs :: overwriteFirstTable bs tc
    | other => other :: overwriteFirstTable bs tc

/-- src/template_engine/migration.py migrate_v1_to_v2: best-effort
upgrade of a legacy v1 configuration dict to the v2 block schema. -/
def migrate_v1_to_v2 (v1 : List (String × JValue)) (question_type : String) : JValue :=
  let v2kvs :=
    match preset_table_default question_type with
    | .jobj kvs => kvs
    | _ => []
  let styles :=
    match (objGet v2kvs "styles").getD (.jobj []) with
    | .jobj s => s
    | _ => []
  let v1Styles :=
    match objGet v1 "styles" with
    | some (.jobj s) => s
    | _ => []
  let v2kvs1 := objSet v2kvs "styles" (.jobj (migrateStyles v1Styles styles))
  let layout :=
    match objGet v1 "layout" with
    | some (.jobj l) => l
    | _ => []
  let tableCols : Option (List Int) :=
    match objGet layout question_type with
    | some (.jobj lt) =>
      match objGet lt "table_cols_pct" with
      | some (.jarr tc) =>
        if tc.all jIsIntOrFloat then some (tc.map jIntVal) else none
      | _ => none
    | _ => none
  let v2kvs2 :=
    match tableCols with
    | some tc =>
      if tc.isEmpty then v2kvs1
      else
        match objGet v2kvs1 "blocks" with
        | some (.jarr bs) => objSet v2kvs1 "blocks" (.jarr (overwriteFirstTable bs tc))
        | _ => v2kvs1
    | none => v2kvs1
  .jobj v2kvs2

/-- A value of the question dictionary handed to the renderer: a string
field, a list of answer strings, a list of matching {item, answer} pairs,
or Python None. -/
inductive QVal where
  | vstr (s : String)
  | vlist (l : List String)
  | vpairs (l : List (String × String))
  | vnone
deriving Inhabited, DecidableEq

/-- Python truthiness of a question-dict value. -/
def qvTruthy : QVal → Bool
  | .vstr s => s ≠ ""
  | .vlist l => !l.isEmpty
  | .vpairs l => !l.isEmpty
  | .vnone => false

/-- Python repr of a short string (quote corner cases do not arise in the
rendered fields, which are plain text). -/
def pyReprStr (s : String) : String := "'" ++ s ++ "'"

/-- Python str() of a question-dict value. -/
def qvalStr : QVal → String
  | .vstr s => s
  | .vlist l => "[" ++ joinSep ", " (l.map pyReprStr) ++ "]"
  | .vpairs l =>
    "[" ++ joinSep ", "
      (l.map (fun p => "\x7b'item': " ++ pyReprStr p.1 ++ ", 'answer': " ++ pyReprStr p.2 ++ "\x7d"))
      ++ "]"
  | .vnone => "None"

/-- A loop item bound by a list/table block: an answer string or a
matching {item, answer} dict. -/
inductive Item where
  | istr (s : String)
  | ipair (item answer : String)
deriving Inhabited, DecidableEq

/-- Python str() of a loop item. -/
def itemStr : Item → String
  | .istr s => s
  | .ipair a b => "\x7b'item': " ++ pyReprStr a ++ ", 'answer': " ++ pyReprStr b ++ "\x7d"

/-- Association-list lookup for the question dictionary. -/
def lookupQ (q : List (String × QVal)) (k : String) : Option QVal :=
  match q with
  | [] => none
  | (k', v) :: rest => if k' = k then some v else lookupQ rest k

/-- Association-list lookup for the (string-valued) metadata dictionary. -/
def lookupM (m : List (String × String)) (k : String) : Option String :=
  match m with
  | [] => none
  | (k', v) :: rest => if k' = k then some v else lookupM rest k

/-- metadata.get(k, d). -/
def mGetD (m : List (String × String)) (k d : String) : String :=
  (lookupM m k).getD d

/-- The evaluation context of render_question_html: the question view,
the metadata dictionary and the precomputed task header. -/
structure RenderCtx where
  question : List (String × QVal)
  metadata : List (String × String)
  taskHeader : String

/-- set(ctx["question"].get("correct_answers") or []), as the membership
list it induces (iterating a string yields its one-character strings). -/
def correctList (ctx : RenderCtx) : List String :=
  match lookupQ ctx.question "correct_answers" with
  | some (.vlist l) => l
  | some (.vstr s) => if s ≠ "" then s.data.map (fun c => String.mk [c]) else []
  | _ => []

/-- The pipe-free arm of _eval_pipe: resolve a stripped base expression
against the context, an unresolved lookup giving the empty string. -/
def evalBase (ctx : RenderCtx) (item : Option Item) (e : String) : String :=
  if strStartsWith e "question." then
    match lookupQ ctx.question (strDrop e 9) with
    | none => ""
    | some v => if qvTruthy v then qvalStr v else ""
  else if strStartsWith e "metadata." then
    match lookupM ctx.metadata (strDrop e 9) with
    | none => ""
    | some v => if v ≠ "" then v else ""
  else if e = "task.header" then ctx.taskHeader
  else if e = "item" then
    match item with
    | none => ""
    | some it => itemStr it
  else if strStartsWith e "item." then
    match item with
    | some (.ipair a b) =>
      let key := strDrop e 5
      if key = "item" then a else if key = "answer" then b else ""
    | _ => ""
  else ""

/-- src/template_engine/render_html.py _eval_pipe: evaluate a placeholder
expression, with the optional is_correct / if_correct pipe transforms
(an unknown pipe operator falls through to the base value). -/
def evalPipe (ctx : RenderCtx) (item : Option Item) (expr : String) : String :=
  let e := pyStrip expr
  if e.data.contains (Char.ofNat 124) then
    let p := splitOnceChar (Char.ofNat 124) e.data
    let base := pyStrip (String.mk p.1)
    let op := pyStrip (String.mk (p.2.getD []))
    if op = "is_correct" then
      if (correctList ctx).contains (evalBase ctx item base) then "+" else ""
    else if op = "if_correct" then
      let v := evalBase ctx item base
      if (correctList ctx).contains v then v else ""
    else evalBase ctx item base
  else evalBase ctx item e

/-- html.escape(str(v), quote=True), one character at a time (ampersand
first makes the sequential replacements characterwise). -/
def escChar (c : Char) : List Char :=
  if c = '&' then "&amp;".data
  else if c = '<' then "&lt;".data
  else if c = '>' then "&gt;".data
  else if c = '\"' then "&quot;".data
  else if c = Char.ofNat 39 then "&#x27;".data
  else [c]

/-- The _esc helper of render_html.py on a string value. -/
def esc (s : String) : String := String.mk (s.data.flatMap escChar)

/-- One attempted match of the placeholder regex at the current position:
a nonempty brace-free run directly closed by two closing braces. -/
def grabExpr (l : List Char) : Option (List Char × List Char) :=
  match l.dropWhile (fun c => c ≠ Char.ofNat 125) with
  | _ :: c2 :: r =>
    if l.takeWhile (fun c => c ≠ Char.ofNat 125) ≠ [] ∧ c2 = Char.ofNat 125 then
      some (l.takeWhile (fun c => c ≠ Char.ofNat 125), r)
    else none
  | _ => none

/-- The re.sub scan of _render_pattern: walk the pattern, replacing each
regex match by the escaped evaluation of its trimmed content. The fuel
argument (always at least the input length, so never exhausted) makes
the recursion structural. -/
def renderScan (ctx : RenderCtx) (item : Option Item) : Nat → List Char → List Char
  | 0, l => l
  | _ + 1, [] => []
  | _ + 1, [c] => [c]
  | fuel + 1, c :: c2 :: cs2 =>
    if c = Char.ofNat 123 ∧ c2 = Char.ofNat 123 then
      match grabExpr cs2 with
      | some (content, rest) =>
        (esc (evalPipe ctx item (String.mk content))).data ++ renderScan ctx item fuel rest
      | none => c :: renderScan ctx item fuel (c2 :: cs2)
    else c :: renderScan ctx item fuel (c2 :: cs2)

/-- src/template_engine/render_html.py _render_pattern. -/
def renderPattern (ctx : RenderCtx) (item : Option Item) (pattern : String) : String :=
  String.mk (renderScan ctx item pattern.data.length pattern.data)

/-- Python str() of a JValue (used on table headers). -/
def pyStrV (v : JValue) : String := pyStrJ (some v)

/-- A validated cols entry (a string after validation). -/
def jPatStr : JValue → String
  | .jstr s => s
  | _ => ""

/-- A validated pattern value out of a block dict (always a string on the
paths the renderer reaches, since it validates first). -/
def jGetStrD (kvs : List (String × JValue)) (k d : String) : String :=
  match objGet kvs k with
  | some (.jstr s) => s
  | _ => d

/-- Iterating a question-dict value the way the renderer loops do
(a string yields its characters, None yields nothing). -/
def qvIter : Option QVal → List Item
  | some (.vlist l) => l.map .istr
  | some (.vstr s) => s.data.map (fun c => .istr (String.mk [c]))
  | some (.vpairs l) => l.map (fun p => .ipair p.1 p.2)
  | _ => []

/-- _get_question_view: the question dict extended with the correct_join
and matching_join derived fields (which take precedence on lookup). -/
def getQuestionView (q : List (String × QVal)) : List (String × QVal) :=
  ("correct_join",
    .vstr (joinSep "; " ((qvIter (lookupQ q "correct_answers")).map itemStr))) ::
  ("matching_join",
    .vstr (joinSep "; " ((qvIter (lookupQ q "matching_items")).filterMap
      (fun it => match it with
        | .ipair a b => some (a ++ "→" ++ b)
        | _ => none)))) :: q

/-- The task-header string computed once per question render. -/
def taskHeaderStr (metadata : List (String × String)) (task_number : Int) : String :=
  "- Задание " ++ toString task_number ++ " (" ++ mGetD metadata "pk_prefix" "ПК" ++ "-" ++
    mGetD metadata "pk_id" "" ++ " – " ++ mGetD metadata "ipk_prefix" "ИПК" ++ "-" ++
    mGetD metadata "ipk_id" "" ++ " " ++ mGetD metadata "description" "" ++ ")"

/-- Resolution of a list/table source name to the question items. -/
def sourceItems (question : List (String × QVal)) (src : Option JValue) : List Item :=
  match src with
  | some (.jstr s) =>
    if s = "answers_all" then qvIter (lookupQ question "answers")
    else if s = "answers_correct" then qvIter (lookupQ question "correct_answers")
    else if s = "matching_pairs" then qvIter (lookupQ question "matching_items")
    else []
  | _ => []

/-- b.get(k) or [] for a list-valued block key. -/
def jArrD (v : Option JValue) : List JValue :=
  match v with
  | some (.jarr l) => l
  | _ => []

/-- The width-style computation of the table renderer: a nonempty width
list of exactly the column count styles each column width:w%, anything
else styles nothing. -/
def tableWidthStyle (widths : List JValue) (colCount : Nat) : List String :=
  if ¬widths.isEmpty ∧ widths.length = colCount then
    widths.map (fun w => "width:" ++ toString (jIntVal w) ++ "%")
  else List.replicate colCount ""

/-- The table arm of the render_question_html block loop. -/
def renderTableBlock (ctx : RenderCtx) (question : List (String × QVal))
    (kvs : List (String × JValue)) : String :=
  let items := sourceItems question (objGet kvs "source")
  let headers : List JValue := jArrD (objGet kvs "headers")
  let cols : List String := (jArrD (objGet kvs "cols")).map jPatStr
  let widths : List JValue := jArrD (objGet kvs "col_widths_pct")
  let colCount := cols.length
  let widthStyle : List String := tableWidthStyle widths colCount
  let headHtml : String :=
    if ¬headers.isEmpty ∧ headers.length = colCount then
      "<thead><tr>" ++
        String.join ((headers.zip widthStyle).map (fun p =>
          "<th style='" ++ esc p.2 ++ "'>" ++ esc (pyStrV p.1) ++ "</th>")) ++
        "</tr></thead>"
    else ""
  let rowItems : List (Option Item) := if items.isEmpty then [none] else items.map some
  let rowsHtml := rowItems.map (fun it =>
    "<tr>" ++
      String.join ((cols.zip widthStyle).map (fun p =>
        "<td style='" ++ esc p.2 ++ "'>" ++ renderPattern ctx it p.1 ++ "</td>")) ++
      "</tr>")
  "<table>" ++ headHtml ++ "<tbody>" ++ String.join rowsHtml ++ "</tbody></table>"

/-- One iteration of the block loop of render_question_html: the HTML
fragment a block contributes (an unmatched block contributes nothing). -/
def renderBlock (ctx : RenderCtx) (question : List (String × QVal)) (b : JValue) :
    List String :=
  match b with
  | .jobj kvs =>
    match objGet kvs "kind" with
    | some (.jstr k) =>
      if k = "line" then
        ["<div class='line'>" ++ renderPattern ctx none (jGetStrD kvs "pattern" "") ++ "</div>"]
      else if k = "spacer" then
        ["<div style='height:" ++ toString (jIntVal ((objGet kvs "mm").getD (.jint 4))) ++
          "mm'></div>"]
      else if k = "list" then
        let pattern := jGetStrD kvs "pattern" "\x7b\x7bitem\x7d\x7d"
        let bullet := jTruthy ((objGet kvs "bullet").getD (.jbool true))
        let items := sourceItems question (objGet kvs "source")
        let tag := if bullet then "ul" else "ol"
        let lis :=
          if items.isEmpty then "<li></li>"
          else String.join (items.map (fun x =>
            "<li>" ++ renderPattern ctx (some x) pattern ++ "</li>"))
        ["<" ++ tag ++ ">" ++ lis ++ "</" ++ tag ++ ">"]
      else if k = "table" then
        [renderTableBlock ctx question kvs]
      else []
    | _ => []
  | _ => []

/-- The outcome of render_question_html, keeping the validation-failure
diagnostic distinguishable from a rendered block list. -/
inductive RenderResult where
  | templateError (msg : String)
  | rendered (parts : List String)
deriving Inhabited, DecidableEq

/-- src/template_engine/render_html.py render_question_html, split into
its two outcomes: one diagnostic on validation failure, else one HTML
fragment per block. -/
def renderQuestionParts (cfg : JValue) (question : List (String × QVal))
    (metadata : List (String × String)) (task_number : Int) : RenderResult :=
  let errors := validate_template_config_v2 cfg
  if ¬errors.isEmpty then .templateError (joinSep "; " errors)
  else
    let ctx : RenderCtx := ⟨getQuestionView question, metadata, taskHeaderStr metadata task_number⟩
    let blocks : List JValue :=
      match cfg with
      | .jobj kvs =>
        match objGet kvs "blocks" with
        | some (.jarr l) => l
        | _ => []
      | _ => []
    .rendered (blocks.flatMap (renderBlock ctx question))

/-- The final string of render_question_html. -/
def render_question_html (cfg : JValue) (question : List (String × QVal))
    (metadata : List (String × String)) (task_number : Int) : String :=
  match renderQuestionParts cfg question metadata task_number with
  | .templateError msg => "<div class='muted'>Template error: " ++ esc msg ++ "</div>"
  | .rendered parts => joinSep "\n" parts

/-- An answer sub-element of a question element: its fraction attribute
(float(elem.get('fraction', '0')), exact as a rational) and the text of
its first text descendant ("" when the text node is missing or empty,
which the code treats alike). -/
structure AnswerElem where
  fraction : Rat
  text : String
deriving Repr, DecidableEq

/-- A subquestion sub-element of a matching question: its prompt text and
the text of its nested answer element (none when no answer element). -/
structure SubqElem where
  text : String
  answer : Option String
deriving Repr, DecidableEq

/-- One element of root.findall('.//question'): its type attribute and
the sub-element content each extractor reads. -/
structure XElem where
  qtype : String
  categoryText : Option String
  questionText : Option String
  referenceAnswer : Option String
  name : Option String
  answers : List AnswerElem
  subquestions : List SubqElem
deriving Repr, DecidableEq

/-- The Question model (src/models/question.py) as filled by from_dict. -/
structure Question where
  qtype : String
  question_text : String
  reference_answer : String
  name : String
  answers : List String := []
  correct_answers : List String := []
  matching_items : List (String × String) := []
  matching_answers : List String := []
deriving Repr, DecidableEq

/-- The Course model (src/models/course.py). -/
structure Course where
  name : String
  questions : List Question := []
deriving Repr, DecidableEq

/-- Course.add_question. -/
def addQuestion (c : Course) (q : Question) : Course :=
  { c with questions := c.questions ++ [q] }

/-- The multichoice answer loop: each answer with nonempty text joins
answers, and also correct_answers when its fraction is nonzero. -/
def mcCollect : List AnswerElem → List String × List String
  | [] => ([], [])
  | a :: rest =>
    let r := mcCollect rest
    if a.text ≠ "" then
      (a.text :: r.1, if a.fraction ≠ 0 then a.text :: r.2 else r.2)
    else r

/-- The matching subquestion loop: keep (prompt, answer) pairs whose
prompt and answer texts are both nonempty. -/
def matchingCollect : List SubqElem → List (String × String)
  | [] => []
  | sq :: rest =>
    match sq.answer with
    | some ans =>
      if sq.text ≠ "" ∧ ans ≠ "" then (sq.text, ans) :: matchingCollect rest
      else matchingCollect rest
    | none => matchingCollect rest

/-- Python dict assignment for the truefalse answer dictionary
(overwrite in place, else append). -/
def setBoolAssoc : List (String × Bool) → String → Bool → List (String × Bool)
  | [], k, v => [(k, v)]
  | (k', v') :: rest, k, v =>
    if k' = k then (k, v) :: rest else (k', v') :: setBoolAssoc rest k v

/-- Membership of a key in the truefalse answer dictionary. -/
def hasKeyBool (d : List (String × Bool)) (k : String) : Bool :=
  match d with
  | [] => false
  | (k', _) :: rest => k' = k || hasKeyBool rest k

/-- The truefalse answer loop: normalize true/false labels to
Верно/Неверно, record each in the answer dictionary with its
fraction == 100 flag, and append the 100%-ones to correct_answers. -/
def tfFold (st : List (String × Bool) × List String) :
    List AnswerElem → List (String × Bool) × List String
  | [] => st
  | a :: rest =>
    if a.text ≠ "" then
      let t := strToLower (pyStrip a.text)
      let rus := if t = "true" then "Верно" else if t = "false" then "Неверно" else t
      let d := setBoolAssoc st.1 rus (a.fraction = 100)
      let c := if a.fraction = 100 then st.2 ++ [rus] else st.2
      tfFold (d, c) rest
    else tfFold st rest

/-- The truefalse answer ordering: Верно first, Неверно second, then any
unexpected labels in dictionary (encounter) order. -/
def tfAnswers (d : List (String × Bool)) : List String :=
  (if hasKeyBool d "Верно" then ["Верно"] else []) ++
  (if hasKeyBool d "Неверно" then ["Неверно"] else []) ++
  ((d.map Prod.fst).filter (fun k => k ≠ "Верно" ∧ k ≠ "Неверно"))

/-- src/parsers/xml_parser.py _parse_question_element: the generic fields
plus the type-specific extraction for multichoice, matching, shortanswer
and truefalse. -/
def parse_question_element (xe : XElem) : Question :=
  let base : Question :=
    { qtype := xe.qtype,
      question_text := xe.questionText.getD "",
      reference_answer := xe.referenceAnswer.getD "",
      name := xe.name.getD "" }
  if xe.qtype = "multichoice" then
    let r := mcCollect xe.answers
    { base with answers := r.1, correct_answers := r.2 }
  else if xe.qtype = "matching" then
    let items := matchingCollect xe.subquestions
    { base with
      matching_items := items,
      matching_answers := List.insertionSort (· ≤ ·) (items.map Prod.snd).dedup }
  else if xe.qtype = "shortanswer" then
    let ca := (xe.answers.filter (fun a => a.fraction ≠ 0 ∧ a.text ≠ "")).map AnswerElem.text
    { base with correct_answers := ca, reference_answer := ca.headD "" }
  else if xe.qtype = "truefalse" then
    let r := tfFold ([], []) xe.answers
    { base with answers := tfAnswers r.1, correct_answers := r.2 }
  else base

/-- The root-category path constant CATEGORY_PREFIX of the parser. -/
def CATEGORY_ROOT : String :=
  "$module$/top/По умолчанию для Банк вопросов курса Оценочные материалы"

/-- src/parsers/xml_parser.py _extract_course_name: the course name is
the last nonempty path segment after the known root-category path. -/
def extract_course_name (xe : XElem) : Option String :=
  match xe.categoryText with
  | none => none
  | some t =>
    let category_path := pyStrip t
    if ¬strStartsWith category_path CATEGORY_ROOT then none
    else
      let rel := pyStrip (strDrop category_path CATEGORY_ROOT.length)
      if rel = "" ∨ ¬strStartsWith rel "/" then none
      else
        let rel2 := strDrop rel 1
        if rel2 = "" then none
        else
          let parts :=
            (((splitChar '/' rel2.data).map (fun p => pyStrip (String.mk p))).filter
              (fun p => p ≠ ""))
          parts.getLast?

/-- A flush of the current course when it has at least one question. -/
def flushCourse (cur : Option Course) (acc : List Course) : List Course :=
  match cur with
  | some c => if c.questions.length > 0 then acc ++ [c] else acc
  | none => acc

/-- The element loop of parse_courses: the state is the pending category
name, the open course, and the flushed courses so far. -/
def pcGo (last : Option String) (cur : Option Course) (acc : List Course) :
    List XElem → List Course
  | [] => flushCourse cur acc
  | e :: es =>
    if e.qtype = "category" then
      match extract_course_name e with
      | some nm => pcGo (some nm) none (flushCourse cur acc) es
      | none => pcGo last cur acc es
    else
      let q := parse_question_element e
      match cur with
      | some c => pcGo last (some (addQuestion c q)) acc es
      | none =>
        match last with
        | some nm => pcGo none (some (addQuestion ⟨nm, []⟩ q)) acc es
        | none => pcGo last (some (addQuestion ⟨"Без категории", []⟩ q)) acc es

/-- src/parsers/xml_parser.py parse_courses, over the ordered stream of
question elements of the document. -/
def parse_courses (es : List XElem) : List Course := pcGo none none [] es

/-- src/parsers/xml_parser.py parse: the legacy flat list, concatenating
every course's questions in order. -/
def parse (es : List XElem) : List Question :=
  (parse_courses es).foldl (fun acc c => acc ++ c.questions) []

/-- Consume a tag name case-insensitively at the head of the input. -/
def dropNameCI : List Char → List Char → Option (List Char)
  | [], l => some l
  | _ :: _, [] => none
  | n :: ns, c :: cs => if c.toLower = n.toLower then dropNameCI ns cs else none

/-- One attempted match of an opening-tag pattern of the sanitizer,
of shape: angle bracket, tag name (case-insensitive), any run of
characters other than the closing angle bracket, closing angle bracket
(this covers the self-closing br form as well). -/
def matchOpen (name : List Char) : List Char → Option (List Char)
  | [] => none
  | c :: cs =>
    if c = '<' then
      match dropNameCI name cs with
      | some rest =>
        match rest.dropWhile (fun x => x ≠ '>') with
        | _ :: after => some after
        | [] => none
      | none => none
    else none

/-- One attempted match of a closing-tag pattern: the literal
slash-prefixed tag (case-insensitive) closed immediately. -/
def matchClose (name : List Char) : List Char → Option (List Char)
  | [] => none
  | [_] => none
  | c1 :: c2 :: cs =>
    if c1 = '<' ∧ c2 = '/' then
      match dropNameCI name cs with
      | some rest =>
        match rest with
        | g :: after => if g = '>' then some after else none
        | [] => none
      | none => none
    else none

/-- The matcher of one html_tags pattern of clean_xml_file. -/
def tagMatcher (closing : Bool) (name : String) : List Char → Option (List Char) :=
  if closing then matchClose name.data else matchOpen name.data

/-- The left-to-right re.sub scan deleting every match of one pattern
(fuel-structural; the fuel is always at least the input length, and every
matcher consumes at least one character, so it is never exhausted). -/
def stripScan (m : List Char → Option (List Char)) : Nat → List Char → List Char
  | 0, l => l
  | _ + 1, [] => []
  | fuel + 1, c :: cs =>
    match m (c :: cs) with
    | some rest => stripScan m fuel rest
    | none => c :: stripScan m fuel cs

/-- The html_tags pattern list of clean_xml_file, in source order
(closing flag, tag name). -/
def htmlTags : List (Bool × String) :=
  [(false, "p"), (true, "p"), (false, "br"),
   (false, "div"), (true, "div"), (false, "span"), (true, "span"),
   (false, "strong"), (true, "strong"), (false, "b"), (true, "b"),
   (false, "em"), (true, "em"), (false, "i"), (true, "i"),
   (false, "u"), (true, "u"), (false, "ul"), (true, "ul"),
   (false, "ol"), (true, "ol"), (false, "li"), (true, "li"),
   (false, "table"), (true, "table"), (false, "tr"), (true, "tr"),
   (false, "td"), (true, "td"), (false, "th"), (true, "th")]

/-- Delete the known HTML tags from a CDATA content, pattern by pattern. -/
def stripHtmlTags (content : List Char) : List Char :=
  htmlTags.foldl (fun acc p => stripScan (tagMatcher p.1 p.2) acc.length acc) content

/-- re.sub of a whitespace run to a single space (fuel-structural). -/
def collapseWs : Nat → List Char → List Char
  | 0, l => l
  | _ + 1, [] => []
  | fuel + 1, c :: cs =>
    if pyIsSpace c then ' ' :: collapseWs fuel (cs.dropWhile pyIsSpace)
    else c :: collapseWs fuel cs

/-- src/utils/file_utils.py escape_xml_text: one character at a time
(the ampersand-first order of the sequential replaces makes them
characterwise). -/
def escapeXmlChar (c : Char) : List Char :=
  if c = '&' then "&amp;".data
  else if c = '<' then "&lt;".data
  else if c = '>' then "&gt;".data
  else if c = '\"' then "&quot;".data
  else if c = Char.ofNat 39 then "&apos;".data
  else [c]

/-- src/utils/file_utils.py escape_xml_text. -/
def escape_xml_text (s : String) : String :=
  if s = "" then s else String.mk (s.data.flatMap escapeXmlChar)

/-- The replace_cdata body of clean_xml_file: strip the known tags,
collapse whitespace, strip, re-escape. -/
def replaceCdataChars (content : List Char) : List Char :=
  (escape_xml_text (String.mk (pyStripChars
    (collapseWs (stripHtmlTags content).length (stripHtmlTags content))))).data

/-- The CDATA opening delimiter. -/
def openerChars : List Char := "<![CDATA[".data

/-- Lazy search for the CDATA closing delimiter: the content before its
first occurrence and the input after it. -/
def findClose : List Char → Option (List Char × List Char)
  | [] => none
  | c :: cs =>
    if List.isPrefixOf "]]>".data (c :: cs) then some ([], (c :: cs).drop 3)
    else
      match findClose cs with
      | some (pre, post) => some (c :: pre, post)
      | none => none

/-- The CDATA re.sub scan of clean_xml_file (fuel-structural; the fuel
is at least the input length, and a match consumes the whole CDATA
block, so it is never exhausted). -/
def cleanScan : Nat → List Char → List Char
  | 0, l => l
  | _ + 1, [] => []
  | fuel + 1, c :: cs =>
    if List.isPrefixOf openerChars (c :: cs) then
      match findClose ((c :: cs).drop 9) with
      | some (content, rest) => replaceCdataChars content ++ cleanScan fuel rest
      | none => c :: cleanScan fuel cs
    else c :: cleanScan fuel cs

/-- src/utils/file_utils.py clean_xml_file: replace every CDATA block by
its sanitized content. -/
def clean_xml_file (s : String) : String :=
  if s = "" then s else String.mk (cleanScan s.data.length s.data)

/-- Occurrence of a character sequence inside a character list. -/
def hasSeq (pat : List Char) : List Char → Bool
  | [] => pat.isEmpty
  | c :: cs => List.isPrefixOf pat (c :: cs) || hasSeq pat cs

/-! ## Association-list update lemmas -/

theorem objGet_objSet_self (kvs : List (String × JValue)) (k : String) (v : JValue) :
    objGet (objSet kvs k v) k = some v := by
  induction kvs with
  | nil => simp [objSet, objGet]
  | cons kv rest ih =>
    by_cases h : kv.1 = k
    · simp [objSet, h, objGet]
    · simp [objSet, h, objGet, ih]

theorem objGet_objSet_ne (kvs : List (String × JValue)) (k k' : String) (v : JValue)
    (h : k' ≠ k) : objGet (objSet kvs k v) k' = objGet kvs k' := by
  have hkk' : ¬k = k' := fun hc => h hc.symm
  induction kvs with
  | nil => simp [objSet, objGet, hkk']
  | cons kv rest ih =>
    by_cases hk : kv.1 = k
    · simp [objSet, hk, objGet, hkk']
    · simp only [objSet, hk, if_neg hk, objGet, ih]

/-! ## Sample question and metadata used by the concrete evaluations -/

/-- A minimal sample question dictionary carrying every field the
template presets reference. -/
def sampleQuestion : List (String × QVal) :=
  [("type", .vstr "multichoice"), ("question_text", .vstr "2+2?"),
   ("reference_answer", .vstr "4"), ("name", .vstr "q1"),
   ("answers", .vlist ["2", "3", "4"]), ("correct_answers", .vlist ["4"]),
   ("matching_items", .vpairs [("a", "x")]), ("matching_answers", .vlist ["x"])]

/-- A minimal sample metadata dictionary. -/
def sampleMetadata : List (String × String) :=
  [("pk_id", "1.1"), ("ipk_id", "2.2"), ("description", "умение")]

/-! ## C1 -/

/-- C1: the claim that validate(migrate(v1, t)) = [] for every known
type t fails on the code: the migrated configuration starts from the
built-in preset, whose table blocks carry empty-string cols entries, and
the validator rejects those; only the essay preset (no table) passes.
This theorem evaluates the code at the failing inputs (v1 = {}): the
four table-bearing types each produce a validation error, essay none.
The repo's own test test_presets_validate asserts these very
validations return [], so the code contradicts its tests. -/
theorem migrate_then_validate_eval :
    validate_template_config_v2 (migrate_v1_to_v2 [] "essay") = [] ∧
    validate_template_config_v2 (migrate_v1_to_v2 [] "shortanswer") =
      ["blocks[3].cols must contain non-empty strings"] ∧
    validate_template_config_v2 (migrate_v1_to_v2 [] "multichoice") =
      ["blocks[3].cols must contain non-empty strings"] ∧
    validate_template_config_v2 (migrate_v1_to_v2 [] "matching") =
      ["blocks[3].cols must contain non-empty strings"] ∧
    validate_template_config_v2 (migrate_v1_to_v2 [] "truefalse") =
      ["blocks[3].cols must contain non-empty strings"] := by
  refine ⟨by decide, by decide, by decide, by decide, by decide⟩

/-! ## C2 -/

/-- C2: the claim that rendering the built-in default preset for each of
the five known types yields at least one IR node and zero diagnostics
fails on the code for the same root cause as C1: render_question_html
re-validates the configuration and the four table-bearing presets fail
validation, so their render is exactly one diagnostic (template-error)
node; only the essay preset renders. Evaluation at the failing inputs. -/
theorem preset_render_eval :
    renderQuestionParts (preset_table_default "essay") sampleQuestion sampleMetadata 1 =
      .rendered
        ["<div class='line'>- Задание 1 (ПК-1.1 – ИПК-2.2 умение)</div>",
         "<div class='line'>2+2?</div>",
         "<div style='height:2mm'></div>",
         "<div class='line'>Эталон: 4</div>"] ∧
    renderQuestionParts (preset_table_default "shortanswer") sampleQuestion sampleMetadata 1 =
      .templateError "blocks[3].cols must contain non-empty strings" ∧
    renderQuestionParts (preset_table_default "multichoice") sampleQuestion sampleMetadata 1 =
      .templateError "blocks[3].cols must contain non-empty strings" ∧
    renderQuestionParts (preset_table_default "matching") sampleQuestion sampleMetadata 1 =
      .templateError "blocks[3].cols must contain non-empty strings" ∧
    renderQuestionParts (preset_table_default "truefalse") sampleQuestion sampleMetadata 1 =
      .templateError "blocks[3].cols must contain non-empty strings" := by
  refine ⟨by decide, by decide, by decide, by decide, by decide⟩

/-! ## C4 -/

/-- A valid one-column table configuration whose col_widths_pct is the
zero-sum list [0]. -/
def tableZeroWidthCfg : JValue :=
  .jobj [("version", .jint 2),
    ("blocks", .jarr [
      .jobj [("kind", .jstr "table"), ("source", .jstr "answers_all"),
             ("cols", .jarr [.jstr "\x7b\x7bitem\x7d\x7d"]),
             ("col_widths_pct", .jarr [.jint 0])]])]

/-- The same configuration without any col_widths_pct. -/
def tableNoWidthCfg : JValue :=
  .jobj [("version", .jint 2),
    ("blocks", .jarr [
      .jobj [("kind", .jstr "table"), ("source", .jstr "answers_all"),
             ("cols", .jarr [.jstr "\x7b\x7bitem\x7d\x7d"])]])]

/-- C4 counterexample: a present col_widths_pct list of matching length
whose sum is zero is NOT ignored by the HTML table renderer: every cell
is styled width:0%, unlike the unweighted render of the same table.
Only the length-mismatch half of the claim holds. -/
theorem zero_sum_widths_not_ignored :
    render_question_html tableZeroWidthCfg sampleQuestion sampleMetadata 1 =
      "<table><tbody><tr><td style='width:0%'>2</td></tr><tr><td style='width:0%'>3</td></tr>" ++
      "<tr><td style='width:0%'>4</td></tr></tbody></table>" ∧
    render_question_html tableNoWidthCfg sampleQuestion sampleMetadata 1 =
      "<table><tbody><tr><td style=''>2</td></tr><tr><td style=''>3</td></tr>" ++
      "<tr><td style=''>4</td></tr></tbody></table>" ∧
    render_question_html tableZeroWidthCfg sampleQuestion sampleMetadata 1 ≠
      render_question_html tableNoWidthCfg sampleQuestion sampleMetadata 1 := by
  refine ⟨by decide, by decide, by decide⟩

/-- C4 amended: if the col_widths_pct list's length differs from the
number of cols, the table renderer ignores it silently and renders the
table unweighted (the render equals the one with an empty width list);
a zero-sum list of matching length, however, is applied as width:w%
styles, not ignored. -/
theorem width_length_mismatch_ignored (ctx : RenderCtx) (q : List (String × QVal))
    (kvs : List (String × JValue)) (w : List JValue)
    (hw : objGet kvs "col_widths_pct" = some (.jarr w))
    (hlen : w.length ≠ (jArrD (objGet kvs "cols")).length) :
    renderTableBlock ctx q kvs =
      renderTableBlock ctx q (objSet kvs "col_widths_pct" (.jarr [])) := by
  have h1 : objGet (objSet kvs "col_widths_pct" (.jarr [])) "source" = objGet kvs "source" :=
    objGet_objSet_ne _ _ _ _ (by decide)
  have h2 : objGet (objSet kvs "col_widths_pct" (.jarr [])) "headers" = objGet kvs "headers" :=
    objGet_objSet_ne _ _ _ _ (by decide)
  have h3 : objGet (objSet kvs "col_widths_pct" (.jarr [])) "cols" = objGet kvs "cols" :=
    objGet_objSet_ne _ _ _ _ (by decide)
  have h4 : objGet (objSet kvs "col_widths_pct" (.jarr [])) "col_widths_pct" =
      some (.jarr []) := objGet_objSet_self _ _ _
  have hws : tableWidthStyle w ((jArrD (objGet kvs "cols")).map jPatStr).length =
      tableWidthStyle [] ((jArrD (objGet kvs "cols")).map jPatStr).length := by
    unfold tableWidthStyle
    rw [if_neg (by rw [List.length_map]; exact fun hc => hlen hc.2), if_neg (by simp)]
  simp only [renderTableBlock, h1, h2, h3, h4, hw]
  rw [show jArrD (some (JValue.jarr w)) = w from rfl,
    show jArrD (some (JValue.jarr [])) = ([] : List JValue) from rfl, hws]

/-- C4 amended, witnessed at a concrete input: a two-entry width list on
a one-column table is ignored. -/
theorem width_length_mismatch_ignored_witness :
    objGet [("kind", JValue.jstr "table"), ("source", JValue.jstr "answers_all"),
        ("cols", JValue.jarr [.jstr "\x7b\x7bitem\x7d\x7d"]),
        ("col_widths_pct", JValue.jarr [.jint 5, .jint 5])] "col_widths_pct" =
      some (.jarr [.jint 5, .jint 5]) ∧
    renderTableBlock ⟨sampleQuestion, sampleMetadata, ""⟩ sampleQuestion
        [("kind", JValue.jstr "table"), ("source", JValue.jstr "answers_all"),
         ("cols", JValue.jarr [.jstr "\x7b\x7bitem\x7d\x7d"]),
         ("col_widths_pct", JValue.jarr [.jint 5, .jint 5])] =
      renderTableBlock ⟨sampleQuestion, sampleMetadata, ""⟩ sampleQuestion
        (objSet [("kind", JValue.jstr "table"), ("source", JValue.jstr "answers_all"),
          ("cols", JValue.jarr [.jstr "\x7b\x7bitem\x7d\x7d"]),
          ("col_widths_pct", JValue.jarr [.jint 5, .jint 5])]
          "col_widths_pct" (.jarr [])) :=
  ⟨rfl, width_length_mismatch_ignored _ _ _ [JValue.jint 5, JValue.jint 5] rfl (by decide)⟩

/-! ## Expression-evaluator lemmas (C8, C10) -/

theorem pyStripChars_sublist (l : List Char) : List.Sublist (pyStripChars l) l := by
  unfold pyStripChars pyStripRChars pyStripLChars
  refine List.Sublist.trans ?_ (List.dropWhile_sublist pyIsSpace)
  have h := (@List.dropWhile_sublist Char ((l.dropWhile pyIsSpace).reverse) pyIsSpace).reverse
  simpa using h

theorem contains_false_of_sublist {s l : List Char} {c : Char}
    (hs : List.Sublist s l) (h : l.contains c = false) : s.contains c = false := by
  by_contra hc
  rw [Bool.not_eq_false] at hc
  simp only [List.contains] at hc h
  rw [List.elem_iff] at hc
  have hm : c ∈ l := hs.subset hc
  have hm' : List.elem c l = true := List.elem_iff.mpr hm
  rw [h] at hm'
  cases hm'

theorem splitOnceChar_fst_contains (c : Char) (l : List Char) :
    (splitOnceChar c l).1.contains c = false := by
  induction l with
  | nil => simp [splitOnceChar]
  | cons a as ih =>
    by_cases h : a = c
    · simp [splitOnceChar, h]
    · simp only [splitOnceChar, if_neg h]
      rw [List.contains_cons, ih]
      simp
      exact fun hc => h hc.symm

/-! ## C10 -/

/-- C10: for every expression of the form base|op whose operator part is
neither is_correct nor if_correct, _eval_pipe returns the value of the
base expression unchanged: the unknown pipe operator acts as the
identity, not an error and not the empty string. (base is the part
before the first pipe, op everything after it, both stripped, exactly as
the code splits.) -/
theorem unknown_pipe_identity (ctx : RenderCtx) (item : Option Item) (e : String)
    (hp : (pyStrip e).data.contains (Char.ofNat 124) = true)
    (h1 : pyStrip (String.mk ((splitOnceChar (Char.ofNat 124) (pyStrip e).data).2.getD [])) ≠
      "is_correct")
    (h2 : pyStrip (String.mk ((splitOnceChar (Char.ofNat 124) (pyStrip e).data).2.getD [])) ≠
      "if_correct") :
    evalPipe ctx item e =
      evalPipe ctx item (String.mk (splitOnceChar (Char.ofNat 124) (pyStrip e).data).1) := by
  have hfst := splitOnceChar_fst_contains (Char.ofNat 124) (pyStrip e).data
  have hsub : List.Sublist
      (pyStripChars (splitOnceChar (Char.ofNat 124) (pyStrip e).data).1)
      (splitOnceChar (Char.ofNat 124) (pyStrip e).data).1 := pyStripChars_sublist _
  have hrhs : (pyStrip (String.mk
      (splitOnceChar (Char.ofNat 124) (pyStrip e).data).1)).data.contains
      (Char.ofNat 124) = false := contains_false_of_sublist hsub hfst
  simp only [evalPipe, hp, if_true, hrhs, Bool.false_eq_true, if_false,
    if_neg h1, if_neg h2]

/-- C10 witness: question.name|upper falls through to the value of
question.name. -/
theorem unknown_pipe_identity_witness :
    (pyStrip "question.name|upper").data.contains (Char.ofNat 124) = true ∧
    pyStrip (String.mk ((splitOnceChar (Char.ofNat 124)
      (pyStrip "question.name|upper").data).2.getD [])) ≠ "is_correct" ∧
    pyStrip (String.mk ((splitOnceChar (Char.ofNat 124)
      (pyStrip "question.name|upper").data).2.getD [])) ≠ "if_correct" ∧
    evalPipe ⟨[("name", .vstr "X")], [], "hdr"⟩ none "question.name|upper" =
      evalPipe ⟨[("name", .vstr "X")], [], "hdr"⟩ none
        (String.mk (splitOnceChar (Char.ofNat 124)
          (pyStrip "question.name|upper").data).1) ∧
    evalPipe ⟨[("name", .vstr "X")], [], "hdr"⟩ none "question.name|upper" = "X" :=
  ⟨by decide, by decide, by decide,
   unknown_pipe_identity ⟨[("name", .vstr "X")], [], "hdr"⟩ none "question.name|upper"
     (by decide) (by decide) (by decide), by decide⟩

/-! ## C8 -/

/-- C8: the expression evaluator is total and resolves every unresolved
lookup to the empty string: an unknown base form, a missing question or
metadata field, and an item reference outside a list/table loop all
evaluate to "" (for any context and any pipe-free expression). -/
theorem eval_unresolved_empty (ctx : RenderCtx) (item : Option Item) (e : String)
    (hnp : (pyStrip e).data.contains (Char.ofNat 124) = false) :
    (strStartsWith (pyStrip e) "question." = false →
      strStartsWith (pyStrip e) "metadata." = false →
      pyStrip e ≠ "task.header" → pyStrip e ≠ "item" →
      strStartsWith (pyStrip e) "item." = false →
      evalPipe ctx item e = "") ∧
    (strStartsWith (pyStrip e) "question." = true →
      lookupQ ctx.question (strDrop (pyStrip e) 9) = none →
      evalPipe ctx item e = "") ∧
    (strStartsWith (pyStrip e) "metadata." = true →
      strStartsWith (pyStrip e) "question." = false →
      lookupM ctx.metadata (strDrop (pyStrip e) 9) = none →
      evalPipe ctx item e = "") ∧
    (pyStrip e = "item" → item = none → evalPipe ctx item e = "") ∧
    (strStartsWith (pyStrip e) "item." = true →
      strStartsWith (pyStrip e) "question." = false →
      strStartsWith (pyStrip e) "metadata." = false →
      pyStrip e ≠ "task.header" → pyStrip e ≠ "item" →
      item = none → evalPipe ctx item e = "") := by
  refine ⟨?_, ?_, ?_, ?_, ?_⟩
  · intro q1 q2 q3 q4 q5
    simp only [evalPipe, hnp, Bool.false_eq_true, if_false, evalBase, q1, q2, q5]
    simp [q3, q4]
  · intro q1 q2
    simp only [evalPipe, hnp, Bool.false_eq_true, if_false, evalBase, q1, if_true, q2]
  · intro q1 q2 q3
    simp only [evalPipe, hnp, Bool.false_eq_true, if_false, evalBase, q1, q2, if_true, q3]
  · intro q1 q2
    subst q2
    simp only [evalPipe, hnp, Bool.false_eq_true, if_false, evalBase, q1]
    simp [show strStartsWith "item" "question." = false from rfl,
      show strStartsWith "item" "metadata." = false from rfl]
  · intro q1 q2 q3 q4 q5 q6
    subst q6
    simp only [evalPipe, hnp, Bool.false_eq_true, if_false, evalBase, q1, q2, q3, if_true]
    simp [q4, q5]

/-- C8 witness: each unresolved case at a concrete input. -/
theorem eval_unresolved_empty_witness :
    ((pyStrip "bogus.field").data.contains (Char.ofNat 124) = false ∧
      evalPipe ⟨[("name", .vstr "X")], [("pk", "1")], "hdr"⟩ none "bogus.field" = "") ∧
    (evalPipe ⟨[("name", .vstr "X")], [("pk", "1")], "hdr"⟩ none "question.missing" = "") ∧
    (evalPipe ⟨[("name", .vstr "X")], [("pk", "1")], "hdr"⟩ none "metadata.missing" = "") ∧
    (evalPipe ⟨[("name", .vstr "X")], [("pk", "1")], "hdr"⟩ none "item" = "") ∧
    (evalPipe ⟨[("name", .vstr "X")], [("pk", "1")], "hdr"⟩ none "item.answer" = "") :=
  ⟨⟨by decide,
    (eval_unresolved_empty ⟨[("name", .vstr "X")], [("pk", "1")], "hdr"⟩ none "bogus.field"
      (by decide)).1 (by decide) (by decide) (by decide) (by decide) (by decide)⟩,
   (eval_unresolved_empty ⟨[("name", .vstr "X")], [("pk", "1")], "hdr"⟩ none "question.missing"
      (by decide)).2.1 (by decide) (by decide),
   (eval_unresolved_empty ⟨[("name", .vstr "X")], [("pk", "1")], "hdr"⟩ none "metadata.missing"
      (by decide)).2.2.1 (by decide) (by decide) (by decide),
   (eval_unresolved_empty ⟨[("name", .vstr "X")], [("pk", "1")], "hdr"⟩ none "item"
      (by decide)).2.2.2.1 (by decide) rfl,
   (eval_unresolved_empty ⟨[("name", .vstr "X")], [("pk", "1")], "hdr"⟩ none "item.answer"
      (by decide)).2.2.2.2 (by decide) (by decide) (by decide) (by decide) (by decide) rfl⟩

/-! ## C9 -/

theorem foldl_append_questions (l : List Course) (init : List Question) :
    l.foldl (fun acc c => acc ++ c.questions) init =
      init ++ (l.map Course.questions).flatten := by
  induction l generalizing init with
  | nil => simp
  | cons c cs ih => simp [ih, List.append_assoc]

/-- C9: the legacy flat API is the flattening of the grouped API: parse
returns exactly the concatenation, in course order, of the questions
lists of the courses of parse_courses, preserving question order. -/
theorem parse_eq_flatten_courses (es : List XElem) :
    parse es = ((parse_courses es).map Course.questions).flatten := by
  unfold parse
  rw [foldl_append_questions]
  simp

/-! ## C6 -/

theorem matchingCollect_mem (subs : List SubqElem) :
    ∀ p ∈ matchingCollect subs, p.1 ≠ "" ∧ p.2 ≠ "" := by
  induction subs with
  | nil => simp [matchingCollect]
  | cons sq rest ih =>
    intro p hp
    rcases ha : sq.answer with _ | ans
    · simp only [matchingCollect, ha] at hp
      exact ih p hp
    · simp only [matchingCollect, ha] at hp
      by_cases hc : sq.text ≠ "" ∧ ans ≠ ""
      · rw [if_pos hc] at hp
        rcases List.mem_cons.mp hp with hp | hp
        · subst hp
          exact hc
        · exact ih p hp
      · rw [if_neg hc] at hp
        exact ih p hp

/-- C6: for a matching question, pairs with an empty prompt or answer
are skipped (every retained pair has nonempty prompt and answer), and
matching_answers is a strictly ascending, duplicate-free list equal, as
a set, to the answer texts of the retained matching_items pairs. -/
theorem matching_answers_sorted_unique (xe : XElem) (h : xe.qtype = "matching") :
    (∀ p ∈ (parse_question_element xe).matching_items, p.1 ≠ "" ∧ p.2 ≠ "") ∧
    List.Sorted (· < ·) (parse_question_element xe).matching_answers ∧
    (parse_question_element xe).matching_answers.toFinset =
      ((parse_question_element xe).matching_items.map Prod.snd).toFinset := by
  have hq : parse_question_element xe =
      { qtype := xe.qtype,
        question_text := xe.questionText.getD "",
        reference_answer := xe.referenceAnswer.getD "",
        name := xe.name.getD "",
        matching_items := matchingCollect xe.subquestions,
        matching_answers := List.insertionSort (· ≤ ·)
          ((matchingCollect xe.subquestions).map Prod.snd).dedup } := by
    rw [parse_question_element, h]
    rfl
  rw [hq]
  refine ⟨matchingCollect_mem xe.subquestions, ?_, ?_⟩
  · have hs : List.Sorted (· ≤ ·) (List.insertionSort (· ≤ ·)
        ((matchingCollect xe.subquestions).map Prod.snd).dedup) :=
      List.sorted_insertionSort _ _
    have hperm := List.perm_insertionSort (· ≤ ·)
      ((matchingCollect xe.subquestions).map Prod.snd).dedup
    have hnd : (List.insertionSort (· ≤ ·)
        ((matchingCollect xe.subquestions).map Prod.snd).dedup).Nodup :=
      hperm.nodup_iff.mpr (List.nodup_dedup _)
    exact List.Sorted.lt_of_le hs hnd
  · have hperm := List.perm_insertionSort (· ≤ ·)
      ((matchingCollect xe.subquestions).map Prod.snd).dedup
    ext a
    simp [List.mem_toFinset, hperm.mem_iff, List.mem_dedup]

/-- C6 witness: a concrete matching element with a duplicate answer, an
empty prompt and a missing answer. -/
theorem matching_answers_sorted_unique_witness :
    (XElem.mk "matching" none (some "Q") none (some "n") []
        [⟨"b", some "z"⟩, ⟨"a", some "y"⟩, ⟨"", some "x"⟩, ⟨"c", some "z"⟩,
         ⟨"d", none⟩]).qtype = "matching" ∧
    ((∀ p ∈ (parse_question_element (XElem.mk "matching" none (some "Q") none (some "n") []
        [⟨"b", some "z"⟩, ⟨"a", some "y"⟩, ⟨"", some "x"⟩, ⟨"c", some "z"⟩,
         ⟨"d", none⟩])).matching_items, p.1 ≠ "" ∧ p.2 ≠ "") ∧
      List.Sorted (· < ·) (parse_question_element (XElem.mk "matching" none (some "Q") none
        (some "n") [] [⟨"b", some "z"⟩, ⟨"a", some "y"⟩, ⟨"", some "x"⟩, ⟨"c", some "z"⟩,
         ⟨"d", none⟩])).matching_answers ∧
      (parse_question_element (XElem.mk "matching" none (some "Q") none (some "n") []
        [⟨"b", some "z"⟩, ⟨"a", some "y"⟩, ⟨"", some "x"⟩, ⟨"c", some "z"⟩,
         ⟨"d", none⟩])).matching_answers.toFinset =
        ((parse_question_element (XElem.mk "matching" none (some "Q") none (some "n") []
          [⟨"b", some "z"⟩, ⟨"a", some "y"⟩, ⟨"", some "x"⟩, ⟨"c", some "z"⟩,
           ⟨"d", none⟩])).matching_items.map Prod.snd).toFinset) :=
  ⟨rfl, matching_answers_sorted_unique _ rfl⟩

/-! ## C3 -/

theorem mcCollect_snd_subset (l : List AnswerElem) :
    ∀ x ∈ (mcCollect l).2, x ∈ (mcCollect l).1 := by
  induction l with
  | nil => simp [mcCollect]
  | cons a rest ih =>
    intro x hx
    by_cases ht : a.text ≠ ""
    · simp only [mcCollect, if_pos ht] at hx ⊢
      by_cases hf : a.fraction ≠ 0
      · rw [if_pos hf] at hx
        rcases List.mem_cons.mp hx with hx | hx
        · exact hx ▸ List.mem_cons_self _ _
        · exact List.mem_cons_of_mem _ (ih x hx)
      · rw [if_neg hf] at hx
        exact List.mem_cons_of_mem _ (ih x hx)
    · simp only [mcCollect, if_neg ht] at hx ⊢
      exact ih x hx

theorem mcCollect_snd_nonempty (l : List AnswerElem)
    (h : ∃ a ∈ l, a.text ≠ "" ∧ a.fraction ≠ 0) : (mcCollect l).2 ≠ [] := by
  induction l with
  | nil => simp at h
  | cons a rest ih =>
    rcases h with ⟨w, hw, hwt, hwf⟩
    rcases List.mem_cons.mp hw with hw | hw
    · subst hw
      simp [mcCollect, if_pos hwt, if_pos hwf]
    · by_cases ht : a.text ≠ ""
      · simp only [mcCollect, if_pos ht]
        by_cases hf : a.fraction ≠ 0
        · simp [if_pos hf]
        · rw [if_neg hf]
          exact ih ⟨w, hw, hwt, hwf⟩
      · simp only [mcCollect, if_neg ht]
        exact ih ⟨w, hw, hwt, hwf⟩

theorem hasKeyBool_set_mono (d : List (String × Bool)) (k x : String) (v : Bool)
    (h : hasKeyBool d x = true) : hasKeyBool (setBoolAssoc d k v) x = true := by
  induction d with
  | nil => simp [hasKeyBool] at h
  | cons kv rest ih =>
    by_cases hk : kv.1 = k
    · simp only [setBoolAssoc, if_pos hk, hasKeyBool]
      simp only [hasKeyBool] at h
      rcases Bool.or_eq_true_iff.mp h with h | h
      · rw [decide_eq_true_eq] at h
        rw [← hk, h]
        simp
      · rw [h]
        simp
    · simp only [setBoolAssoc, if_neg hk, hasKeyBool] at h ⊢
      rcases Bool.or_eq_true_iff.mp h with h | h
      · rw [h]
        simp
      · rw [ih h]
        simp

theorem hasKeyBool_set_self (d : List (String × Bool)) (k : String) (v : Bool) :
    hasKeyBool (setBoolAssoc d k v) k = true := by
  induction d with
  | nil => simp [setBoolAssoc, hasKeyBool]
  | cons kv rest ih =>
    by_cases hk : kv.1 = k
    · simp [setBoolAssoc, if_pos hk, hasKeyBool]
    · simp [setBoolAssoc, if_neg hk, hasKeyBool, ih]

theorem tfFold_correct_keys (l : List AnswerElem) :
    ∀ st : List (String × Bool) × List String,
      (∀ x ∈ st.2, hasKeyBool st.1 x = true) →
      ∀ x ∈ (tfFold st l).2, hasKeyBool (tfFold st l).1 x = true := by
  induction l with
  | nil => intro st hst x hx; exact hst x hx
  | cons a rest ih =>
    intro st hst x hx
    by_cases ht : a.text ≠ ""
    · simp only [tfFold, if_pos ht] at hx ⊢
      refine ih _ ?_ x hx
      intro y hy
      by_cases hf : a.fraction = 100
      · rw [if_pos hf] at hy
        rcases List.mem_append.mp hy with hy | hy
        · exact hasKeyBool_set_mono _ _ _ _ (hst y hy)
        · rcases List.mem_singleton.mp hy with rfl
          exact hasKeyBool_set_self _ _ _
      · rw [if_neg hf] at hy
        exact hasKeyBool_set_mono _ _ _ _ (hst y hy)
    · simp only [tfFold, if_neg ht] at hx ⊢
      exact ih _ hst x hx

theorem hasKeyBool_mem_keys (d : List (String × Bool)) (x : String)
    (h : hasKeyBool d x = true) : x ∈ d.map Prod.fst := by
  induction d with
  | nil => simp [hasKeyBool] at h
  | cons kv rest ih =>
    simp only [hasKeyBool] at h
    rcases Bool.or_eq_true_iff.mp h with h | h
    · rw [decide_eq_true_eq] at h
      simp [h.symm]
    · simp [ih h]

theorem tfAnswers_mem (d : List (String × Bool)) (x : String)
    (h : hasKeyBool d x = true) : x ∈ tfAnswers d := by
  unfold tfAnswers
  by_cases h1 : x = "Верно"
  · subst h1
    rw [h]
    simp
  · by_cases h2 : x = "Неверно"
    · subst h2
      rw [h]
      simp
    · have hk := hasKeyBool_mem_keys d x h
      simp [List.mem_append, List.mem_filter, hk, h1, h2]

theorem tfFold_snd_ne (l : List AnswerElem) :
    ∀ st : List (String × Bool) × List String, st.2 ≠ [] → (tfFold st l).2 ≠ [] := by
  induction l with
  | nil => intro st h; exact h
  | cons a rest ih =>
    intro st h
    by_cases ht : a.text ≠ ""
    · simp only [tfFold, if_pos ht]
      by_cases hf : a.fraction = 100
      · rw [if_pos hf]
        exact ih _ (by simp)
      · rw [if_neg hf]
        exact ih _ h
    · simp only [tfFold, if_neg ht]
      exact ih _ h

theorem tfFold_snd_nonempty (l : List AnswerElem) :
    ∀ st : List (String × Bool) × List String,
      (∃ a ∈ l, a.text ≠ "" ∧ a.fraction = 100) → (tfFold st l).2 ≠ [] := by
  induction l with
  | nil => intro st h; simp at h
  | cons a rest ih =>
    intro st h
    rcases h with ⟨w, hw, hwt, hwf⟩
    rcases List.mem_cons.mp hw with hw | hw
    · subst hw
      simp only [tfFold, if_pos hwt, if_pos hwf]
      exact tfFold_snd_ne rest _ (by simp)
    · by_cases ht : a.text ≠ ""
      · simp only [tfFold, if_pos ht]
        by_cases hf : a.fraction = 100
        · rw [if_pos hf]
          exact tfFold_snd_ne rest _ (by simp)
        · rw [if_neg hf]
          exact ih _ ⟨w, hw, hwt, hwf⟩
      · simp only [tfFold, if_neg ht]
        exact ih _ ⟨w, hw, hwt, hwf⟩

/-- A truefalse element whose only answer has the positive fraction 50
(not the maximum 100). -/
def tfPositiveFractionElem : XElem :=
  ⟨"truefalse", none, some "Q", none, some "n", [⟨50, "true"⟩], []⟩

/-- C3 counterexample: for a truefalse question whose answer carries the
positive fraction 50, the input has an answer element with positive
weight yet correct_answers is empty (only fraction exactly 100 counts),
refuting the claim's non-emptiness clause as stated. -/
theorem truefalse_positive_fraction_counterexample :
    (∃ a ∈ tfPositiveFractionElem.answers, 0 < a.fraction ∧ a.text ≠ "") ∧
    (parse_question_element tfPositiveFractionElem).correct_answers = [] := by
  refine ⟨⟨⟨50, "true"⟩, by decide, by decide, by decide⟩, by decide⟩

/-- C3 amended: for multichoice and truefalse questions, correct_answers
is always contained in answers; and correct_answers is non-empty
whenever some answer element with non-empty text has nonzero fraction
(multichoice) or fraction exactly 100 (truefalse). The original claim's
positive-fraction trigger fails for truefalse fractions other than 100
and for answers with empty text, which are skipped entirely. -/
theorem mc_tf_correct_invariant (xe : XElem)
    (h : xe.qtype = "multichoice" ∨ xe.qtype = "truefalse") :
    (∀ x ∈ (parse_question_element xe).correct_answers,
      x ∈ (parse_question_element xe).answers) ∧
    ((∃ a ∈ xe.answers, a.text ≠ "" ∧
        (if xe.qtype = "multichoice" then a.fraction ≠ 0 else a.fraction = 100)) →
      (parse_question_element xe).correct_answers ≠ []) := by
  rcases h with h | h
  · have hq : parse_question_element xe =
        { qtype := xe.qtype,
          question_text := xe.questionText.getD "",
          reference_answer := xe.referenceAnswer.getD "",
          name := xe.name.getD "",
          answers := (mcCollect xe.answers).1,
          correct_answers := (mcCollect xe.answers).2 } := by
      rw [parse_question_element, h]
      rfl
    rw [hq, h]
    exact ⟨mcCollect_snd_subset xe.answers, fun hx => mcCollect_snd_nonempty _ (by simpa using hx)⟩
  · have hq : parse_question_element xe =
        { qtype := xe.qtype,
          question_text := xe.questionText.getD "",
          reference_answer := xe.referenceAnswer.getD "",
          name := xe.name.getD "",
          answers := tfAnswers (tfFold ([], []) xe.answers).1,
          correct_answers := (tfFold ([], []) xe.answers).2 } := by
      rw [parse_question_element, h]
      rfl
    rw [hq, h]
    constructor
    · intro x hx
      exact tfAnswers_mem _ x
        (tfFold_correct_keys xe.answers ([], []) (by simp) x hx)
    · intro hx
      exact tfFold_snd_nonempty _ _ (by simpa using hx)

/-- C3 amended, witnessed: a multichoice element with answers (100, A)
and (0, B). -/
theorem mc_tf_correct_invariant_witness :
    ((XElem.mk "multichoice" none (some "Q") none (some "n")
        [⟨100, "A"⟩, ⟨0, "B"⟩] []).qtype = "multichoice" ∨
      (XElem.mk "multichoice" none (some "Q") none (some "n")
        [⟨100, "A"⟩, ⟨0, "B"⟩] []).qtype = "truefalse") ∧
    (∀ x ∈ (parse_question_element (XElem.mk "multichoice" none (some "Q") none (some "n")
        [⟨100, "A"⟩, ⟨0, "B"⟩] [])).correct_answers,
      x ∈ (parse_question_element (XElem.mk "multichoice" none (some "Q") none (some "n")
        [⟨100, "A"⟩, ⟨0, "B"⟩] [])).answers) ∧
    (parse_question_element (XElem.mk "multichoice" none (some "Q") none (some "n")
      [⟨100, "A"⟩, ⟨0, "B"⟩] [])).correct_answers ≠ [] :=
  ⟨Or.inl rfl,
   (mc_tf_correct_invariant _ (Or.inl rfl)).1,
   (mc_tf_correct_invariant _ (Or.inl rfl)).2 ⟨⟨100, "A"⟩, by decide, by decide, by decide⟩⟩

/-! ## C5 -/

/-- A stream element that is a category carrying a resolvable course
name (the parser treats every other element as a question). -/
def isValidCat (e : XElem) : Bool :=
  (e.qtype = "category") && (extract_course_name e).isSome

/-- Some question element occurs before the first valid category of the
stream (invalid categories are transparent). -/
def hasLeadingQ : List XElem → Bool
  | [] => false
  | e :: es =>
    if isValidCat e then false
    else if e.qtype = "category" then hasLeadingQ es
    else true

/-- The number of valid categories that are followed by at least one
question before the next valid category (or the end of the stream). -/
def countFollowedCats : List XElem → Nat
  | [] => 0
  | e :: es =>
    (if isValidCat e ∧ hasLeadingQ es then 1 else 0) + countFollowedCats es

theorem pcGo_length (es : List XElem) :
    ∀ (last : Option String) (cur : Option Course) (acc : List Course),
      (∀ c, cur = some c → c.questions ≠ []) →
      (pcGo last cur acc es).length =
        acc.length +
          (match cur with
            | some _ => 1 + countFollowedCats es
            | none => countFollowedCats es + (if hasLeadingQ es then 1 else 0)) := by
  induction es with
  | nil =>
    intro last cur acc hinv
    cases cur with
    | none => simp [pcGo, flushCourse, countFollowedCats, hasLeadingQ]
    | some c =>
      have hne : c.questions.length > 0 :=
        List.length_pos.mpr (hinv c rfl)
      simp [pcGo, flushCourse, if_pos hne, countFollowedCats, hasLeadingQ]
  | cons e es ih =>
    intro last cur acc hinv
    by_cases hcat : e.qtype = "category"
    · rcases hex : extract_course_name e with _ | nm
      · have hv : isValidCat e = false := by
          simp [isValidCat, hex]
        simp only [pcGo, if_pos hcat, hex]
        rw [ih last cur acc hinv]
        simp only [countFollowedCats, hasLeadingQ, hv, hcat]
        cases cur <;> simp
      · have hv : isValidCat e = true := by
          simp [isValidCat, hcat, hex]
        simp only [pcGo, if_pos hcat, hex]
        rw [ih (some nm) none (flushCourse cur acc) (fun c hc => nomatch hc)]
        have hflush : (flushCourse cur acc).length =
            acc.length + (match cur with | some _ => 1 | none => 0) := by
          cases cur with
          | none => simp [flushCourse]
          | some c =>
            have hne : c.questions.length > 0 :=
              List.length_pos.mpr (hinv c rfl)
            simp [flushCourse, if_pos hne]
        rw [hflush]
        simp only [countFollowedCats, hasLeadingQ, hv, if_true]
        cases cur <;> simp <;> omega
    · simp only [pcGo, if_neg hcat]
      have hv : isValidCat e = false := by
        simp [isValidCat, hcat]
      have hcount : countFollowedCats (e :: es) = countFollowedCats es := by
        simp [countFollowedCats, hv]
      have hlead : hasLeadingQ (e :: es) = true := by
        simp [hasLeadingQ, hv, hcat]
      cases cur with
      | some c =>
        rw [ih last (some (addQuestion c (parse_question_element e))) acc
          (fun c' hc' => by
            cases hc'
            simp [addQuestion])]
        simp [hcount]
      | none =>
        cases last with
        | some nm =>
          rw [ih none (some (addQuestion ⟨nm, []⟩ (parse_question_element e))) acc
            (fun c' hc' => by
              cases hc'
              simp [addQuestion])]
          simp [hcount, hlead]
          omega
        | none =>
          rw [ih none (some (addQuestion ⟨"Без категории", []⟩ (parse_question_element e))) acc
            (fun c' hc' => by
              cases hc'
              simp [addQuestion])]
          simp [hcount, hlead]
          omega

/-- C5: the number of courses parse_courses returns equals the number of
valid categories that are followed by at least one question before the
next valid category or the end of the stream, plus one synthetic
uncategorized course exactly when some question precedes the first valid
category; a valid category with no trailing questions yields no course. -/
theorem course_count_eq (es : List XElem) :
    (parse_courses es).length =
      countFollowedCats es + (if hasLeadingQ es then 1 else 0) := by
  have h := pcGo_length es none none [] (fun c hc => nomatch hc)
  simpa [parse_courses] using h

/-! ## C7 -/

theorem cleanScan_id_of_no_opener :
    ∀ (fuel : Nat) (l : List Char), hasSeq openerChars l = false →
      cleanScan fuel l = l := by
  intro fuel
  induction fuel with
  | zero => intro l _; rfl
  | succ n ih =>
    intro l h
    cases l with
    | nil => rfl
    | cons c cs =>
      have h2 : (List.isPrefixOf openerChars (c :: cs) || hasSeq openerChars cs) = false := h
      rcases Bool.or_eq_false_iff.mp h2 with ⟨hp, hs⟩
      simp only [cleanScan, hp, Bool.false_eq_true, if_false]
      rw [ih cs hs]

/-- C7 counterexample: the sanitizer is not idempotent. On the input
built from a nested CDATA opener, the first pass glues an untouched
angle bracket to replaced content and forms a brand-new CDATA block,
which a second pass then rewrites again. -/
theorem clean_not_idempotent_counterexample :
    clean_xml_file (clean_xml_file "<<![CDATA[![CDATA[x]]>]]>") ≠
      clean_xml_file "<<![CDATA[![CDATA[x]]>]]>" := by
  decide

/-- C7 amended: the sanitizer is idempotent on every string whose
sanitized form contains no CDATA opening delimiter (the re-formed
delimiter of the counterexample is the only way a second pass can act):
clean(clean(s)) = clean(s) whenever clean(s) has no occurrence of the
opener. -/
theorem clean_idempotent_of_no_cdata (s : String)
    (h : hasSeq openerChars (clean_xml_file s).data = false) :
    clean_xml_file (clean_xml_file s) = clean_xml_file s := by
  by_cases he : clean_xml_file s = ""
  · rw [he]
    rfl
  · conv_lhs => rw [clean_xml_file]
    rw [if_neg he, cleanScan_id_of_no_opener _ _ h]

/-- C7 amended, witnessed: a CDATA block whose content carries tags and
whitespace sanitizes to plain text and is then a fixed point. -/
theorem clean_idempotent_witness :
    hasSeq openerChars (clean_xml_file "<![CDATA[ <p>a  b</p> ]]>").data = false ∧
    clean_xml_file (clean_xml_file "<![CDATA[ <p>a  b</p> ]]>") =
      clean_xml_file "<![CDATA[ <p>a  b</p> ]]>" :=
  ⟨by decide, clean_idempotent_of_no_cdata _ (by decide)⟩

end MoodleParser
